import Mathlib

/-
  Verification development for the TransactIQ repository.

  The repository ships a React frontend together with three variants of the
  `/api` client module (src/frontend/src/lib/api.js, src/unnamed/part_005,
  src/unnamed/part_006).  The Python analytics backend (query planner,
  executor, anomaly detector, risk analyzer) referenced by the spec is not
  part of the source tree; where a claim depends on it, the missing part is
  modelled from the spec and marked as such in its doc comment.

  JavaScript values exchanged with the backend are modelled by a small
  JSON-like value type; HTTP requests issued by the client modules are
  modelled structurally (method, url, headers, body).
-/

namespace TransactIQ

/-- JSON-like values, modelling the plain objects the JS client modules build
and receive.  Objects keep their field order, as JS objects do. -/
inductive JVal where
  | jnull : JVal
  | jbool : Bool → JVal
  | jnum : Int → JVal
  | jstr : String → JVal
  | jarr : List JVal → JVal
  | jobj : List (String × JVal) → JVal

/-- An output record: a mapping from column name to value. -/
def Row : Type := List (String × JVal)

/-- Field names of a JSON object (empty for non-objects). -/
def JVal.objKeys : JVal → List String
  | .jobj fs => fs.map Prod.fst
  | _ => []

/-- Field access on a JSON object: `o.k` is `undefined` (here `none`) when the
key is absent or the value is not an object. -/
def JVal.getField : JVal → String → Option JVal
  | .jobj fs, k => (fs.find? (fun p => p.1 == k)).map Prod.snd
  | _, _ => Option.none

/-- Request bodies: absent, `JSON.stringify` of a value, or a `FormData`
carrying one appended file. -/
inductive ReqBody where
  | noBody : ReqBody
  | jsonBody : JVal → ReqBody
  | formFile : String → ReqBody

/-- An HTTP request as issued by `fetch` in the client modules. -/
structure HttpRequest where
  method : String
  url : String
  headers : List (String × String)
  body : ReqBody

/-- A server response as observed by the client modules: `ok`/`status`/
`statusText` from fetch, `jsonBody` the result of `res.json()` (none when the
body is not valid JSON), `textBody` the result of `res.text()`. -/
structure ServerResponse where
  ok : Bool
  status : Nat
  statusText : String
  jsonBody : Option JVal
  textBody : String

/-- `Except.isError`-style discriminator for client call outcomes. -/
def isErr {α : Type} : Except String α → Bool
  | .error _ => true
  | .ok _ => false

/-- Hex digit used by the percent-encoder. -/
def hexDigit (n : Nat) : Char :=
  if n < 10 then Char.ofNat (48 + n) else Char.ofNat (55 + n)

/-- UTF-8 bytes of a unicode code point. -/
def utf8Bytes (n : Nat) : List Nat :=
  if n < 128 then [n]
  else if n < 2048 then [192 + n / 64, 128 + n % 64]
  else if n < 65536 then [224 + n / 4096, 128 + (n / 64) % 64, 128 + n % 64]
  else [240 + n / 262144, 128 + (n / 4096) % 64, 128 + (n / 64) % 64, 128 + n % 64]

/-- Characters `encodeURIComponent` leaves unescaped:
`A-Z a-z 0-9 - _ . ! ~ * ' ( )` (by code point). -/
def isUriUnreserved (c : Char) : Bool :=
  let n := c.toNat
  (65 ≤ n && n ≤ 90) || (97 ≤ n && n ≤ 122) || (48 ≤ n && n ≤ 57) ||
    n == 45 || n == 95 || n == 46 || n == 33 || n == 126 ||
    n == 42 || n == 39 || n == 40 || n == 41

/-- JavaScript's `encodeURIComponent`: unreserved characters pass through,
every other character is replaced by the percent-encoding of its UTF-8
bytes. -/
def encodeURIComponent (s : String) : String :=
  String.mk (s.toList.flatMap (fun c =>
    if isUriUnreserved c then [c]
    else (utf8Bytes c.toNat).flatMap (fun b =>
      ['%', hexDigit (b / 16), hexDigit (b % 16)])))

/-!
## Client module 1: `src/frontend/src/lib/api.js` (serverless static mode)

`BASE = '/data'`; `request(file)` fetches `/data/<file>` and throws
`Data load failed: <status>` when the response is not ok.  `query` and
`upload` do not reach the network at all: `query` resolves to a fixed mock
object and `upload` unconditionally throws.
-/

namespace StaticApi

/-- The operation names exported by the serverless `api` object. -/
def opNames : List String :=
  ["health", "overview", "query", "insights", "anomalies", "risk",
   "compareDimensions", "compare", "quality", "upload", "reset", "schema",
   "preview", "exportCSV"]

/-- `request(file)` of the serverless module. -/
def requestFile (file : String) : HttpRequest :=
  { method := "GET", url := "/data/" ++ file, headers := [], body := .noBody }

/-- Error message thrown by the serverless `request` on a non-ok response. -/
def errMsg (r : ServerResponse) : String :=
  "Data load failed: " ++ toString r.status

/-- `health` resolves without any request. -/
def health : JVal :=
  .jobj [("status", .jstr "ok"),
         ("message", .jstr "Running in serverless static mode")]

/-- The fixed object `query` resolves to for every query text. -/
def queryMock : JVal :=
  .jobj [("answer", .jstr ("I am currently running in **Serverless Offline " ++
           "Mode**. The NLP engine is disabled, but the dashboard data is " ++
           "still fully available.")),
         ("data", .jnull)]

/-- `query(query)` ignores its argument and resolves to the static mock. -/
def query (_text : String) : JVal := queryMock

/-- `upload` unconditionally throws; the source ignores the file it is
called with, so the model takes the uploaded table (none = unreadable) and
discards it. -/
def upload (_file : Option (List Row)) : Except String JVal :=
  .error "Dynamic CSV Uploads are disabled in Serverless mode."

/-- `reset` resolves without any request. -/
def reset : JVal := .jobj [("status", .jstr "ok")]

/-- `exportCSV` returns a plain URL string. -/
def exportCSV : String := "/data/upi_transactions.csv"

end StaticApi

/-!
## Client module 2: `src/unnamed/part_005`

`BASE = '/api'`; `request(url, options)` always merges a
`Content-Type: application/json` header (also on GET requests) and throws
`body.detail || 'API error: <status>'` on a non-ok response.
-/

namespace Api5

def opNames : List String :=
  ["health", "overview", "query", "insights", "anomalies", "risk",
   "compareDimensions", "compare", "quality", "upload", "reset", "schema",
   "preview", "exportCSV"]

def ctHeader : List (String × String) := [("Content-Type", "application/json")]

def getReq (url : String) : HttpRequest :=
  { method := "GET", url := "/api" ++ url, headers := ctHeader, body := .noBody }

def health : HttpRequest := getReq "/health"
def overview : HttpRequest := getReq "/overview"

def query (q : String) : HttpRequest :=
  { method := "POST", url := "/api/query", headers := ctHeader,
    body := .jsonBody (.jobj [("query", .jstr q)]) }

def insights : HttpRequest := getReq "/insights"

/-- `anomalies(params = {})` posts `JSON.stringify(params)` unchanged. -/
def anomalies (params : JVal) : HttpRequest :=
  { method := "POST", url := "/api/anomalies", headers := ctHeader,
    body := .jsonBody params }

/-- `anomalies()` with the default parameter, an empty object. -/
def anomaliesNoArg : HttpRequest := anomalies (.jobj [])

/-- `risk(dimension)`: the query string is appended only for a truthy
dimension, and the raw (unencoded) dimension is interpolated. -/
def risk (dimension : Option String) : HttpRequest :=
  getReq (match dimension with
    | some d => if d = "" then "/risk" else "/risk?dimension=" ++ d
    | Option.none => "/risk")

def compareDimensions : HttpRequest := getReq "/compare/dimensions"

/-- `compare(params)` posts `JSON.stringify(params)` unchanged. -/
def compare (params : JVal) : HttpRequest :=
  { method := "POST", url := "/api/compare", headers := ctHeader,
    body := .jsonBody params }

def quality : HttpRequest := getReq "/quality"

/-- `upload(file)` uses a raw fetch with a `FormData` body and no explicit
headers. -/
def uploadReq (file : String) : HttpRequest :=
  { method := "POST", url := "/api/upload", headers := [], body := .formFile file }

/-- `reset()` sends a POST through `request` with no body. -/
def reset : HttpRequest :=
  { method := "POST", url := "/api/reset", headers := ctHeader, body := .noBody }

def schema : HttpRequest := getReq "/schema"

/-- `preview(limit = 50)`. -/
def preview (limit : Nat) : HttpRequest :=
  getReq ("/preview?limit=" ++ toString limit)

def previewNoArg : HttpRequest := preview 50

def exportCSV : String := "/api/export"

/-- The truthy `detail` string of a JSON error body, if any (a non-string
`detail` is not exercised by the modelled backend). -/
def detailOf (r : ServerResponse) : Option String :=
  match r.jsonBody with
  | some b =>
    match b.getField "detail" with
    | some (.jstr s) => if s = "" then Option.none else some s
    | _ => Option.none
  | Option.none => Option.none

/-- Error message thrown by `request` on a non-ok response:
`body.detail || 'API error: <status>'` (the body falls back to `{}` when it
is not JSON). -/
def errMsg (r : ServerResponse) : String :=
  (detailOf r).getD ("API error: " ++ toString r.status)

/-- Outcome of `request` given the server response. -/
def handle (r : ServerResponse) : Except String (Option JVal) :=
  if r.ok then .ok r.jsonBody else .error (errMsg r)

/-- Error message thrown by `upload` on a non-ok response:
`body.detail || 'Upload failed: <status>'`. -/
def uploadErrMsg (r : ServerResponse) : String :=
  (detailOf r).getD ("Upload failed: " ++ toString r.status)

/-- Outcome of `upload` given the server response. -/
def uploadHandle (r : ServerResponse) : Except String (Option JVal) :=
  if r.ok then .ok r.jsonBody else .error (uploadErrMsg r)

end Api5

/-!
## Client module 3: `src/unnamed/part_006`

`BASE = '/api'`; `request(path, options)` passes its options through
unchanged (so GET requests carry no headers) and throws
`API error <status>: <text || statusText>` on a non-ok response; `post`
adds the JSON content type and body.
-/

namespace Api6

def opNames : List String :=
  ["health", "overview", "query", "insights", "anomalies", "risk",
   "compareDimensions", "compare", "quality", "upload", "reset", "schema",
   "preview", "exportCSV"]

def ctHeader : List (String × String) := [("Content-Type", "application/json")]

def getReq (path : String) : HttpRequest :=
  { method := "GET", url := "/api/" ++ path, headers := [], body := .noBody }

def postReq (path : String) (body : JVal) : HttpRequest :=
  { method := "POST", url := "/api/" ++ path, headers := ctHeader,
    body := .jsonBody body }

def health : HttpRequest := getReq "health"
def overview : HttpRequest := getReq "overview"

def query (q : String) : HttpRequest :=
  postReq "query" (.jobj [("query", .jstr q)])

def insights : HttpRequest := getReq "insights"

/-- The `methodOrObj` argument of `anomalies`: a plain string or an object
whose `method` field may be absent (or falsy, here the empty string). -/
inductive AnomArg where
  | str : String → AnomArg
  | obj : Option String → AnomArg
deriving DecidableEq

/-- `const method = typeof methodOrObj === 'object' ?
(methodOrObj.method || 'all') : methodOrObj`. -/
def anomMethod (a : AnomArg) : String :=
  match a with
  | .str s => s
  | .obj (some m) => if m = "" then "all" else m
  | .obj Option.none => "all"

/-- `anomalies(methodOrObj = 'all')`: the missing argument defaults to the
string `'all'`. -/
def anomalies (a : Option AnomArg) : HttpRequest :=
  postReq "anomalies" (.jobj [("method", .jstr (anomMethod (a.getD (.str "all"))))])

/-- `risk(dimension)` with `encodeURIComponent` applied to a truthy
dimension. -/
def risk (dimension : Option String) : HttpRequest :=
  getReq (match dimension with
    | some d => if d = "" then "risk" else "risk?dimension=" ++ encodeURIComponent d
    | Option.none => "risk")

def compareDimensions : HttpRequest := getReq "compare/dimensions"

/-- `compare(dimOrObj, group_a, group_b)` with an object first argument:
the body keeps exactly the `dimension`/`group_a`/`group_b` fields that are
present on the object (`JSON.stringify` drops `undefined` values). -/
def compareObj (o : List (String × JVal)) : HttpRequest :=
  postReq "compare"
    (.jobj (["dimension", "group_a", "group_b"].filterMap (fun k =>
      ((JVal.jobj o).getField k).map (fun v => (k, v)))))

/-- `compare(dimension, group_a, group_b)` with positional string
arguments. -/
def comparePos (dimension group_a group_b : String) : HttpRequest :=
  postReq "compare"
    (.jobj [("dimension", .jstr dimension), ("group_a", .jstr group_a),
            ("group_b", .jstr group_b)])

def quality : HttpRequest := getReq "quality"

/-- `upload(file)` uses a raw fetch with a `FormData` body. -/
def uploadReq (file : String) : HttpRequest :=
  { method := "POST", url := "/api/upload", headers := [], body := .formFile file }

/-- `upload` throws `Upload failed: <status>` exactly on a non-ok
response. -/
def uploadHandle (r : ServerResponse) : Except String (Option JVal) :=
  if r.ok then .ok r.jsonBody
  else .error ("Upload failed: " ++ toString r.status)

/-- `reset()` posts an empty JSON object. -/
def reset : HttpRequest := postReq "reset" (.jobj [])

def schema : HttpRequest := getReq "schema"

/-- `preview(limit = 50)`. -/
def preview (limit : Nat) : HttpRequest :=
  getReq ("preview?limit=" ++ toString limit)

def previewNoArg : HttpRequest := preview 50

def exportCSV : String := "/api/export"

/-- Error message thrown by `request` on a non-ok response:
`API error <status>: <text || statusText>`. -/
def errMsg (r : ServerResponse) : String :=
  "API error " ++ toString r.status ++ ": " ++
    (if r.textBody = "" then r.statusText else r.textBody)

/-- Outcome of `request` given the server response. -/
def handle (r : ServerResponse) : Except String (Option JVal) :=
  if r.ok then .ok r.jsonBody else .error (errMsg r)

end Api6

/-!
## Query planner

Modelled from the spec: the `query_planner` backend module is not under
`src/` (only its HTTP callers are).  §4.2 of the spec fixes the algorithm:
normalize the text, run an ordered sequence of intent matchers where the
first match wins, extract `k` and column references, resolve defaults from
the profile roles, and fall back to a default best-guess intent when no
pattern matches.
-/

/-- A column as the planner sees it (name plus the dtype facts the spec's
resolution step uses). -/
structure ColumnInfo where
  name : String
  isNumeric : Bool
  isCategorical : Bool
deriving DecidableEq, Repr

/-- The slice of the DatasetProfile consumed by the planner: the column list
and the (at most one per role) semantic role assignments. -/
structure Profile where
  columns : List ColumnInfo
  amountRole : Option String
  timestampRole : Option String
  entityRole : Option String
  statusRole : Option String
deriving DecidableEq, Repr

/-- A structured query plan (§3): intent plus resolved references and
parameters, never a computed value. -/
structure QueryPlan where
  intent : String
  target_column : Option String
  dimension_column : Option String
  filters : List (String × String × String)
  k : Option Nat
  time_window : Option String
  comparison_groups : Option (String × String)
deriving DecidableEq, Repr

/-- Normalization (§4.2 step 1): lowercase and strip punctuation; stripped
characters are replaced by spaces so word boundaries survive. -/
def normalize (s : String) : String :=
  String.mk (s.toList.map (fun c =>
    let lc := c.toLower
    if lc.isAlphanum then lc else ' '))

/-- Substring containment (§4.2 step 3 prescribes substring containment, not
edit distance). -/
def strContains (s pat : String) : Bool :=
  s.toList.tails.any (fun t => pat.toList.isPrefixOf t)

/-- The ordered intent matcher table (§4.2 step 2, §9): trigger phrases in
the order the spec prescribes — the first matcher that fires wins, and
anomaly vocabulary precedes `top` so that `top 10 anomalies` classifies as
anomaly detection. -/
def intentMatchers : List (List String × String) :=
  [ (["month over month", "growth"], "month_over_month"),
    (["fraud", "failed", "declined"], "failure_analysis"),
    (["anomal", "outlier", "unusual"], "anomaly_detection"),
    (["quality", "missing", "duplicate"], "data_quality"),
    (["concentration", "hhi"], "concentration"),
    (["compare", " vs "], "comparison"),
    (["distribution", "breakdown"], "distribution"),
    (["top "], "top_k"),
    (["bottom ", "lowest"], "bottom_k"),
    (["trend", "over time", "monthly"], "trend_analysis"),
    (["average", "mean"], "average_value"),
    (["peak", "busiest"], "peak_analysis"),
    (["how many", "count", "volume"], "total_volume"),
    (["total", "sum", "value"], "total_value") ]

/-- First matcher that fires on the normalized text, if any. -/
def matchIntent (t : String) : Option String :=
  (intentMatchers.find? (fun p => p.1.any (fun kw => strContains t kw))).map
    (fun p => p.2)

/-- The default best-guess intent used when no pattern matches (the spec
leaves its identity open; the total-value aggregate over the amount role is
the natural best guess). -/
def defaultIntent : String := "total_value"

/-- Explicit integer extraction for `k` (§4.2 step 3): the first integer
token of the normalized text. -/
def extractK (t : String) : Option Nat :=
  ((t.splitOn " ").filterMap (fun w => w.toNat?)).head?

/-- Column resolution for the target (§4.2 step 4): an explicitly named
column wins, else the amount-role column, else the first numeric column. -/
def resolveTarget (t : String) (p : Profile) : Option String :=
  match p.columns.find? (fun c => strContains t (normalize c.name)) with
  | some c => some c.name
  | Option.none =>
    match p.amountRole with
    | some a => some a
    | Option.none => (p.columns.find? (fun c => c.isNumeric)).map (fun c => c.name)

/-- Column resolution for the grouping dimension (§4.2 step 4): the
entity-role column, else the first categorical column. -/
def resolveDimension (p : Profile) : Option String :=
  match p.entityRole with
  | some e => some e
  | Option.none => (p.columns.find? (fun c => c.isCategorical)).map (fun c => c.name)

/-- Modelled from the spec: `classify(text, profile) → QueryPlan` (§4.2).
Total by construction — when no matcher fires the plan falls back to the
default best-guess intent instead of failing. -/
def classify (text : String) (p : Profile) : QueryPlan :=
  let t := normalize text
  let intent := (matchIntent t).getD defaultIntent
  { intent := intent
    target_column := resolveTarget t p
    dimension_column := resolveDimension p
    filters := []
    k := if intent = "top_k" || intent = "bottom_k"
         then some ((extractK t).getD 10) else Option.none
    time_window := Option.none
    comparison_groups := Option.none }

/-!
## Ask AI page (`src/frontend/src/pages/AskAI.jsx`)

The result bundle rendered by the page, the `renderChart` chart selection,
and the recent-query history update of `execute`.
-/

/-- The chart specification carried by a result. -/
structure ChartSpec where
  type : String
  x : String
  y : String
deriving DecidableEq, Repr

/-- The result bundle consumed by the Ask AI page: rows, ordered column
names, chart spec, explanation and the scan/timing metadata, plus the plan
echoed back (the page reads `res.plan.intent`). -/
structure AnalysisResult where
  results : List Row
  columns : List String
  chart_spec : Option ChartSpec
  explanation : String
  rows_scanned : Nat
  exec_time_ms : ℚ
  plan : QueryPlan

/-- The kind of chart `renderChart` produces (`nochart` models the `null`
returns). -/
inductive ChartKind where
  | nochart | line | pie | bar
deriving DecidableEq, Repr

/-- `renderChart` of AskAI.jsx: `null` when there is no result, no rows or
no chart spec; `null` for the `metric` and `table` types; a line chart for
`line`; a pie chart for `pie`; a bar chart otherwise. -/
def renderChart (result : Option AnalysisResult) : ChartKind :=
  match result with
  | Option.none => .nochart
  | some r =>
    if r.results.isEmpty then .nochart
    else
      match r.chart_spec with
      | Option.none => .nochart
      | some spec =>
        if spec.type = "metric" || spec.type = "table" then .nochart
        else if spec.type = "line" then .line
        else if spec.type = "pie" then .pie
        else .bar

/-- The fixed intent-to-chart lookup the spec describes, extracted from the
branches of `renderChart`. -/
def chartKindOfType (t : String) : ChartKind :=
  if t = "metric" || t = "table" then .nochart
  else if t = "line" then .line
  else if t = "pie" then .pie
  else .bar

/-- One entry of the recent-query history. -/
structure HistoryEntry where
  query : String
  intent : String
  time : ℚ
deriving DecidableEq, Repr

/-- The history update of `execute`:
`setHistory(h => [entry, ...h.slice(0, 9)])`. -/
def pushHistory (e : HistoryEntry) (h : List HistoryEntry) : List HistoryEntry :=
  e :: h.take 9

/-- The history after a sequence of executed queries (in execution order),
starting from the initial empty history. -/
def historyAfter (executed : List HistoryEntry) : List HistoryEntry :=
  executed.foldl (fun h e => pushHistory e h) []

/-!
## Risk analyzer and the Risk page

The HHI core value is computed by the `risk_analyzer` backend module, which
is not under `src/`; it is modelled from the spec (§4.5).  The ×10000
display conversion lives in `src/frontend/src/pages/Risk.jsx`.
-/

/-- Modelled from the spec: the `risk_analyzer` backend module is not under
`src/`.  §4.5: HHI is the sum of squared market shares over the entity-role
dimension, where `share = group_sum / total_sum`, on a 0-1 scale. -/
def hhi (groupSums : List ℚ) : ℚ :=
  let total := groupSums.sum
  (groupSums.map (fun g => (g / total) ^ 2)).sum

/-- The HHI figure the Risk page shows:
`conc.hhi != null ? conc.hhi * 10000 : 0` (Risk.jsx line 25). -/
def displayHHI (reportHHI : Option ℚ) : ℚ :=
  match reportHHI with
  | some v => v * 10000
  | Option.none => 0

/-!
## Anomaly detector

Modelled from the spec: the `anomaly_detector` backend module is not under
`src/`.  §4.4 declares six independent methods, each producing its own
flagged subset; `method: all` runs every applicable method and keys the
per-method results by method name, never merging them.  Values are the
target-column (amount) values; group sums feed the concentration method;
the rolling and spike methods require a timestamp-role column.
-/

/-- The detector's view of the dataset: target-column values in row order,
the per-group sums of the entity dimension, and whether a timestamp role is
assigned (the rolling and spike methods degrade to not-applicable without
one). -/
structure DetectorInput where
  values : List ℚ
  groupSums : List ℚ
  hasTimestamp : Bool
deriving DecidableEq, Repr

/-- The report of one anomaly method: count, method description and the
flagged values. -/
structure MethodReport where
  count : Nat
  description : String
  anomalies : List ℚ
deriving DecidableEq, Repr

/-- The declared method order. -/
def anomalyMethods : List String :=
  ["iqr", "zscore", "percentile", "rolling", "spike", "concentration"]

/-- IQR method: flag values outside `[Q1 - 1.5*IQR, Q3 + 1.5*IQR]`, with the
quartiles read off the sorted values at positions `n/4` and `3n/4`. -/
def iqrFlagged (vs : List ℚ) : List ℚ :=
  let s := vs.mergeSort (fun a b => a ≤ b)
  let n := vs.length
  let q1 := s.getD (n / 4) 0
  let q3 := s.getD (3 * n / 4) 0
  let iqr := q3 - q1
  vs.filter (fun x => x < q1 - 3 / 2 * iqr || x > q3 + 3 / 2 * iqr)

/-- Z-score method: flag `|z| > 3` with population mean and standard
deviation, phrased without square roots as
`n * (x - mean)^2 > 9 * sum((v - mean)^2)`. -/
def zscoreFlagged (vs : List ℚ) : List ℚ :=
  let n : ℚ := vs.length
  let mean := vs.sum / n
  let sqDevSum := (vs.map (fun v => (v - mean) ^ 2)).sum
  vs.filter (fun x => n * (x - mean) ^ 2 > 9 * sqDevSum)

/-- Percentile method: flag values above the 99th percentile, read off the
sorted values at position `99n/100`. -/
def percentileFlagged (vs : List ℚ) : List ℚ :=
  let s := vs.mergeSort (fun a b => a ≤ b)
  let p99 := s.getD (99 * vs.length / 100) 0
  vs.filter (fun x => x > p99)

/-- Rolling-window method: over time-ordered values, compare each point to
the mean and standard deviation of the up-to-5 preceding points and flag
points beyond 3 local standard deviations (again square-root free). -/
def rollingFlagged (vs : List ℚ) : List ℚ :=
  (List.range vs.length).filterMap (fun i =>
    let win := (vs.take i).drop (i - 5)
    if win.length < 2 then Option.none
    else
      let w : ℚ := win.length
      let m := win.sum / w
      let sqDevSum := (win.map (fun v => (v - m) ^ 2)).sum
      let x := vs.getD i 0
      if w * (x - m) ^ 2 > 9 * sqDevSum then some x else Option.none)

/-- Spike method: flag period-over-period jumps above the fixed 200%
relative threshold, i.e. a value more than triple its positive
predecessor. -/
def spikeFlagged (vs : List ℚ) : List ℚ :=
  (List.range vs.length).filterMap (fun i =>
    if i = 0 then Option.none
    else
      let prev := vs.getD (i - 1) 0
      let cur := vs.getD i 0
      if 0 < prev && 3 * prev < cur then some cur else Option.none)

/-- Concentration method: flag dimension groups whose share of the total
exceeds the fixed 40% threshold. -/
def concentrationFlagged (gs : List ℚ) : List ℚ :=
  let total := gs.sum
  gs.filter (fun g => g / total > 2 / 5)

/-- The flagged values of each method on a given input. -/
def methodFlagged (d : DetectorInput) (m : String) : List ℚ :=
  if m = "iqr" then iqrFlagged d.values
  else if m = "zscore" then zscoreFlagged d.values
  else if m = "percentile" then percentileFlagged d.values
  else if m = "rolling" then rollingFlagged d.values
  else if m = "spike" then spikeFlagged d.values
  else if m = "concentration" then concentrationFlagged d.groupSums
  else []

/-- Whether a method applies: the time-based methods need the timestamp
role, everything else always applies. -/
def methodApplicable (d : DetectorInput) (m : String) : Bool :=
  if m = "rolling" || m = "spike" then d.hasTimestamp else true

/-- The fixed human-readable description of each method. -/
def methodDescription (m : String) : String :=
  if m = "iqr" then "Values outside 1.5 IQR below Q1 or above Q3"
  else if m = "zscore" then "Values with absolute z-score above 3"
  else if m = "percentile" then "Values above the 99th percentile"
  else if m = "rolling" then "Values beyond 3 rolling standard deviations"
  else if m = "spike" then "Period-over-period jumps above 200%"
  else if m = "concentration" then "Groups holding more than 40% of the total"
  else "Unknown method"

/-- The report of one applicable method, built only from that method's own
flagged values. -/
def runMethod (d : DetectorInput) (m : String) : Option MethodReport :=
  if methodApplicable d m then
    some { count := (methodFlagged d m).length
           description := methodDescription m
           anomalies := methodFlagged d m }
  else Option.none

/-- Modelled from the spec: `detect` of the anomaly detector.  `method: all`
runs every applicable method and returns the per-method reports keyed by
method name; a single method returns just its own entry. -/
def detect (d : DetectorInput) (method : String) : List (String × MethodReport) :=
  if method = "all" then
    anomalyMethods.filterMap (fun m => (runMethod d m).map (fun r => (m, r)))
  else
    match runMethod d method with
    | some r => [(method, r)]
    | Option.none => []

/-!
## Upload/load handling

`api.upload` of the serverless module throws unconditionally; `upload` of
the backend client (part_006) throws exactly on a non-ok response.  The
backend handler that decides the status is not under `src/` and is modelled
from the spec (§7 item 4).
-/

/-- Modelled from the spec: the backend load/parse handler is not under
`src/`.  §7(4): an unreadable (here `none`) or empty uploaded table is the
only class that fails; any readable non-empty table loads with an ok
response. -/
def backendLoad (table : Option (List Row)) : ServerResponse :=
  match table with
  | Option.none =>
    { ok := false, status := 400, statusText := "Bad Request",
      jsonBody := some (.jobj [("detail", .jstr "Could not read uploaded file")]),
      textBody := "Could not read uploaded file" }
  | some rows =>
    if rows.isEmpty then
      { ok := false, status := 400, statusText := "Bad Request",
        jsonBody := some (.jobj [("detail", .jstr "Uploaded file has no rows")]),
        textBody := "Uploaded file has no rows" }
    else
      { ok := true, status := 200, statusText := "OK",
        jsonBody := some (.jobj [("rows", .jnum rows.length)]),
        textBody := "" }

/-!
## Predictions page initial load (`src/frontend/src/pages/Predictions.jsx`)

The effect runs `Promise.all([api.forecast(3), api.scenarios()])` with a
`.catch` that stores the message in the page's error state.  Evaluating
`api.forecast` on a module that does not define it yields `undefined`, and
calling it throws a synchronous TypeError — before `Promise.all` runs — so
the rejection handler is bypassed and the exception escapes the effect.
-/

/-- Outcome of the initial load: both fetches succeeded, a rejection was
caught by the page's `.catch` (its error branch), or a synchronous throw
escaped the effect. -/
inductive LoadOutcome where
  | success : JVal → JVal → LoadOutcome
  | caught : String → LoadOutcome
  | thrown : String → LoadOutcome

def LoadOutcome.isSuccess : LoadOutcome → Bool
  | .success _ _ => true
  | _ => false

def LoadOutcome.isCaught : LoadOutcome → Bool
  | .caught _ => true
  | _ => false

def LoadOutcome.isThrown : LoadOutcome → Bool
  | .thrown _ => true
  | _ => false

/-- The initial load of the Predictions page against an api module exposing
`ops`, with `fetched` giving each defined operation's eventual outcome. -/
def predictionsLoad (ops : List String) (fetched : String → Except String JVal) :
    LoadOutcome :=
  if ops.contains "forecast" = false then
    .thrown "api.forecast is not a function"
  else if ops.contains "scenarios" = false then
    .thrown "api.scenarios is not a function"
  else
    match fetched "forecast" with
    | .error e => .caught e
    | .ok f =>
      match fetched "scenarios" with
      | .error e => .caught e
      | .ok s => .success f s

/-- A trivial fetch environment used to instantiate the load. -/
def okFetch : String → Except String JVal := fun _ => .ok .jnull

/-!
## Helper lemmas and concrete fixtures
-/

/-- Sum of squares of nonnegative rationals is at most the square of the
sum. -/
lemma sum_sq_le_sq_sum (l : List ℚ) (h : ∀ x ∈ l, 0 ≤ x) :
    (l.map (fun x => x ^ 2)).sum ≤ l.sum ^ 2 := by
  induction l with
  | nil => simp
  | cons a t ih =>
    have ha : 0 ≤ a := h a (by simp)
    have ht : ∀ x ∈ t, 0 ≤ x := fun x hx => h x (by simp [hx])
    have hts : 0 ≤ t.sum := List.sum_nonneg ht
    have hih := ih ht
    simp only [List.map_cons, List.sum_cons]
    nlinarith [sq_nonneg t.sum]

/-- Dividing each term before summing is dividing the sum. -/
lemma sum_map_div (l : List ℚ) (c : ℚ) :
    (l.map (fun x => x / c)).sum = l.sum / c := by
  induction l with
  | nil => simp
  | cons a t ih => simp [ih, add_div]

/-- The HHI value never exceeds 1 on nonnegative group sums. -/
lemma hhi_le_one (gs : List ℚ) (h : ∀ g ∈ gs, 0 ≤ g) : hhi gs ≤ 1 := by
  unfold hhi
  by_cases htot : gs.sum = 0
  · have hz : (fun g => (g / gs.sum) ^ 2) = fun _ : ℚ => (0 : ℚ) := by
      funext g
      rw [htot, div_zero]
      ring
    simp [hz]
  · have hnn : ∀ x ∈ gs.map (fun g => g / gs.sum), 0 ≤ x := by
      intro x hx
      simp only [List.mem_map] at hx
      obtain ⟨g, hg, rfl⟩ := hx
      exact div_nonneg (h g hg) (List.sum_nonneg h)
    have hstep := sum_sq_le_sq_sum (gs.map (fun g => g / gs.sum)) hnn
    rw [List.map_map, sum_map_div, div_self htot] at hstep
    simpa using hstep

/-- The HHI value is nonnegative. -/
lemma hhi_nonneg (gs : List ℚ) : 0 ≤ hhi gs := by
  unfold hhi
  apply List.sum_nonneg
  intro x hx
  simp only [List.mem_map] at hx
  obtain ⟨g, _, rfl⟩ := hx
  positivity

/-- Looking a key up in the keyed `filterMap` of a method table returns that
key's own entry whenever the key is in the table and its entry is
present. -/
lemma lookup_keyed_filterMap (ms : List String) (f : String → Option MethodReport)
    (m : String) (hm : m ∈ ms) (hs : (f m).isSome = true) :
    (ms.filterMap (fun x => (f x).map (fun r => (x, r)))).lookup m = f m := by
  induction ms with
  | nil => cases hm
  | cons a t ih =>
    by_cases ham : a = m
    · subst ham
      obtain ⟨r, hr⟩ := Option.isSome_iff_exists.mp hs
      simp [List.filterMap_cons, hr, List.lookup]
    · have hmt : m ∈ t := by
        rcases List.mem_cons.mp hm with h | h
        · exact absurd h.symm ham
        · exact h
      cases hfa : f a with
      | none => simpa [List.filterMap_cons, hfa] using ih hmt
      | some ra =>
        have hne : (m == a) = false := by
          simp [beq_iff_eq]
          exact fun h => ham h.symm
        simp [List.filterMap_cons, hfa, List.lookup, hne]
        exact ih hmt

/-- The keys of the keyed `filterMap` are exactly the methods whose entry is
present. -/
lemma map_fst_keyed_filterMap (ms : List String) (f : String → Option MethodReport) :
    (ms.filterMap (fun x => (f x).map (fun r => (x, r)))).map Prod.fst
      = ms.filter (fun x => (f x).isSome) := by
  induction ms with
  | nil => rfl
  | cons a t ih =>
    cases hfa : f a with
    | none => simp [List.filterMap_cons, hfa, List.filter_cons, ih]
    | some ra => simp [List.filterMap_cons, hfa, List.filter_cons, ih]

/-- A method's entry is present exactly when the method applies. -/
lemma runMethod_isSome (d : DetectorInput) (m : String) :
    (runMethod d m).isSome = methodApplicable d m := by
  unfold runMethod
  cases h : methodApplicable d m <;> simp [h]

/-- One history push never exceeds ten entries. -/
lemma pushHistory_length_le (e : HistoryEntry) (h : List HistoryEntry) :
    (pushHistory e h).length ≤ 10 := by
  simp only [pushHistory, List.length_cons, List.length_take]
  omega

/-- The fold of pushes preserves the ten-entry bound. -/
lemma foldl_pushHistory_length_le (es : List HistoryEntry) (h : List HistoryEntry)
    (hh : h.length ≤ 10) :
    (es.foldl (fun acc x => pushHistory x acc) h).length ≤ 10 := by
  induction es generalizing h with
  | nil => simpa using hh
  | cons a t ih => exact ih _ (pushHistory_length_le a h)

/-- A result whose chart spec asks for a line chart and which has one row. -/
def resLineWithRows : AnalysisResult :=
  { results := [[("month", JVal.jstr "2024-01"), ("value", JVal.jnum 100)]]
    columns := ["month", "value"]
    chart_spec := some { type := "line", x := "month", y := "value" }
    explanation := "Monthly trend of value"
    rows_scanned := 1
    exec_time_ms := 1
    plan := { intent := "trend_analysis", target_column := some "value",
              dimension_column := Option.none, filters := [], k := Option.none,
              time_window := Option.none, comparison_groups := Option.none } }

/-- The same result with the identical chart spec but no rows. -/
def resLineNoRows : AnalysisResult :=
  { resLineWithRows with results := [] }

/-- A non-ok server response carrying a JSON body without `detail` and the
text `boom`, used to compare the two modules' error messages. -/
def errResp : ServerResponse :=
  { ok := false, status := 500, statusText := "Internal Server Error",
    jsonBody := some (.jobj []), textBody := "boom" }

/-- Both-module agreement on method and url of a request. -/
def sameMethodUrl (a b : HttpRequest) : Prop :=
  a.method = b.method ∧ a.url = b.url

/-- The empty profile used to instantiate planner claims. -/
def profW : Profile :=
  { columns := [], amountRole := Option.none, timestampRole := Option.none,
    entityRole := Option.none, statusRole := Option.none }

/-- A small detector input (the spec's own IQR example values). -/
def detectorW : DetectorInput :=
  { values := [1, 2, 3, 4, 5, 100], groupSums := [1, 1], hasTimestamp := false }

/-!
## Claim theorems
-/

/-- Claim C1, counterexample.  The claim says `api.query` returns an
AnalysisResult bundle with result rows, columns, a chart spec, an
explanation and scan/timing metadata.  The bundled module's `query` resolves
to a fixed object whose only fields are `answer` and `data` — none of the
AnalysisResult fields are present. -/
theorem staticQuery_not_analysisResult :
    (StaticApi.query "What is the total transaction value?").objKeys = ["answer", "data"]
    ∧ "results" ∉ (StaticApi.query "What is the total transaction value?").objKeys
    ∧ "columns" ∉ (StaticApi.query "What is the total transaction value?").objKeys
    ∧ "chart_spec" ∉ (StaticApi.query "What is the total transaction value?").objKeys
    ∧ "explanation" ∉ (StaticApi.query "What is the total transaction value?").objKeys
    ∧ "rows_scanned" ∉ (StaticApi.query "What is the total transaction value?").objKeys
    ∧ "exec_time_ms" ∉ (StaticApi.query "What is the total transaction value?").objKeys := by
  refine ⟨rfl, ?_, ?_, ?_, ?_, ?_, ?_⟩ <;> decide

/-- Claim C1, amended: for every query text the bundled `api.query`
(serverless static mode) resolves to the one fixed notice object, whose only
fields are `answer` and `data` with `data` null — not an AnalysisResult
bundle. -/
theorem staticQuery_constant_mock (q : String) :
    StaticApi.query q = StaticApi.queryMock
    ∧ StaticApi.queryMock.objKeys = ["answer", "data"]
    ∧ StaticApi.queryMock.getField "data" = some JVal.jnull :=
  ⟨rfl, rfl, rfl⟩

/-- Claim C2: the planner never rejects an input — `classify` yields a plan
for every text and profile, taking the intent of the first matcher that
fires and falling back to the default best-guess intent when no pattern
matches; the bundled `api.query` likewise resolves (never rejects) for every
text. -/
theorem classify_total_with_fallback (text : String) (p : Profile) :
    ((matchIntent (normalize text)).isNone → (classify text p).intent = defaultIntent)
    ∧ (∀ i, matchIntent (normalize text) = some i → (classify text p).intent = i)
    ∧ StaticApi.query text = StaticApi.queryMock := by
  refine ⟨?_, ?_, rfl⟩
  · intro hnone
    simp only [classify]
    rw [Option.isNone_iff_eq_none.mp hnone]
    rfl
  · intro i hi
    simp only [classify]
    rw [hi]
    rfl

/-- Claim C2, witness: a text matching no pattern still produces a plan,
with the default best-guess intent. -/
theorem classify_total_with_fallback_witness :
    (classify "zzz qqq" profW).intent = defaultIntent :=
  (classify_total_with_fallback "zzz qqq" profW).1 (by decide)

/-- Claim C3, counterexample.  The claim says a hard upload error surfaces
if and only if the uploaded table is unreadable or empty.  The bundled
serverless module's `upload` throws for every file — also for a readable,
non-empty table. -/
theorem staticUpload_errors_on_readable_table :
    isErr (StaticApi.upload (some [[("amount", JVal.jnum 500)]])) = true
    ∧ (some [[("amount", JVal.jnum 500)]] : Option (List Row)) ≠ Option.none
    ∧ ([[("amount", JVal.jnum 500)]] : List Row) ≠ [] := by
  refine ⟨rfl, by simp, by simp⟩

/-- Claim C3, amended: in the backend client module (part_006) composed with
the spec-modelled load handler, `upload` surfaces a hard error exactly when
the uploaded table is unreadable or empty; the bundled serverless module
instead surfaces a hard error for every upload, of any table. -/
theorem upload_hard_error_iff_unreadable_or_empty (t : Option (List Row)) :
    (isErr (Api6.uploadHandle (backendLoad t)) = true ↔ (t = Option.none ∨ t = some []))
    ∧ isErr (StaticApi.upload t) = true := by
  refine ⟨?_, rfl⟩
  cases t with
  | none => simp [backendLoad, Api6.uploadHandle, isErr]
  | some rows =>
    cases rows with
    | nil => simp [backendLoad, Api6.uploadHandle, isErr]
    | cons r rs => simp [backendLoad, Api6.uploadHandle, isErr]

/-- Claim C3, witness: an unreadable table does surface a hard error through
the backend client. -/
theorem upload_hard_error_iff_unreadable_or_empty_witness :
    isErr (Api6.uploadHandle (backendLoad Option.none)) = true :=
  (upload_hard_error_iff_unreadable_or_empty Option.none).1.mpr (Or.inl rfl)

/-- Claim C4: `classify` is deterministic — equal text and equal profile
always give the identical plan (and the bundled `api.query` is likewise
deterministic in its argument). -/
theorem classify_deterministic (t₁ t₂ : String) (p₁ p₂ : Profile)
    (ht : t₁ = t₂) (hp : p₁ = p₂) :
    classify t₁ p₁ = classify t₂ p₂ ∧ StaticApi.query t₁ = StaticApi.query t₂ := by
  subst ht
  subst hp
  exact ⟨rfl, rfl⟩

/-- Claim C4, witness: determinism instantiated at a concrete query and
profile. -/
theorem classify_deterministic_witness :
    classify "top 10 states by value" profW = classify "top 10 states by value" profW
    ∧ StaticApi.query "top 10 states by value" = StaticApi.query "top 10 states by value" :=
  classify_deterministic "top 10 states by value" "top 10 states by value" profW profW rfl rfl

/-- Claim C5: the core HHI value — the sum of squared shares
`group_sum / total_sum` — lies on the 0-1 scale for nonnegative group sums,
and the Risk page shows `report.hhi * 10000` when the value is present and
`0` when it is absent. -/
theorem hhi_unit_scale_and_display (gs : List ℚ) (h : ∀ g ∈ gs, 0 ≤ g) :
    0 ≤ hhi gs ∧ hhi gs ≤ 1
    ∧ (∀ v : ℚ, displayHHI (some v) = v * 10000)
    ∧ displayHHI Option.none = 0 :=
  ⟨hhi_nonneg gs, hhi_le_one gs h, fun _ => rfl, rfl⟩

/-- Claim C5, witness: the 0-1 bound and the display rule instantiated at
concrete group sums. -/
theorem hhi_unit_scale_and_display_witness :
    0 ≤ hhi [1, 1, 2] ∧ hhi [1, 1, 2] ≤ 1
    ∧ (∀ v : ℚ, displayHHI (some v) = v * 10000)
    ∧ displayHHI Option.none = 0 :=
  hhi_unit_scale_and_display [1, 1, 2] (by intro g hg; fin_cases hg <;> norm_num)

/-- Claim C6, counterexample.  The claim says the chart kind is a pure
function of `chart_spec.type` alone and never depends on the result rows.
Two results with the identical chart spec (type `line`) but different row
lists render differently: with one row a line chart, with no rows no chart
at all. -/
theorem renderChart_depends_on_rows :
    renderChart (some resLineWithRows) = ChartKind.line
    ∧ renderChart (some resLineNoRows) = ChartKind.nochart
    ∧ resLineWithRows.chart_spec = resLineNoRows.chart_spec :=
  ⟨rfl, rfl, rfl⟩

/-- Claim C6, amended: for a result with at least one row and a present
chart spec, the chart kind is the fixed lookup on `chart_spec.type`
(metric and table render no chart, line a line chart, pie a pie chart,
every other type a bar chart); with no rows, a missing chart spec or no
result, no chart is rendered regardless of the type. -/
theorem renderChart_lookup_on_nonempty (r : AnalysisResult) (spec : ChartSpec)
    (hrows : r.results ≠ []) (hspec : r.chart_spec = some spec) :
    renderChart (some r) = chartKindOfType spec.type
    ∧ (∀ s : AnalysisResult, s.results = [] → renderChart (some s) = ChartKind.nochart)
    ∧ renderChart Option.none = ChartKind.nochart
    ∧ chartKindOfType "metric" = ChartKind.nochart
    ∧ chartKindOfType "table" = ChartKind.nochart
    ∧ chartKindOfType "line" = ChartKind.line
    ∧ chartKindOfType "pie" = ChartKind.pie
    ∧ (∀ t : String, t ≠ "metric" → t ≠ "table" → t ≠ "line" → t ≠ "pie" →
        chartKindOfType t = ChartKind.bar) := by
  have hempty : r.results.isEmpty = false := by
    cases hr : r.results with
    | nil => exact absurd hr hrows
    | cons a l => rfl
  refine ⟨?_, ?_, rfl, rfl, rfl, rfl, rfl, ?_⟩
  · simp [renderChart, hempty, hspec, chartKindOfType]
  · intro s hs
    simp [renderChart, hs]
  · intro t h1 h2 h3 h4
    simp [chartKindOfType, h1, h2, h3, h4]

/-- Claim C6, witness: the lookup instantiated at the one-row line-chart
result. -/
theorem renderChart_lookup_on_nonempty_witness :
    renderChart (some resLineWithRows) = chartKindOfType "line" :=
  (renderChart_lookup_on_nonempty resLineWithRows
    { type := "line", x := "month", y := "value" }
    (by simp [resLineWithRows]) rfl).1

/-- Claim C7: `anomalies` defaults to method `all` (part_006 posts
`method: 'all'` when called without an argument), and the detector's `all`
mode gives every applicable method its own entry, keyed by method name and
holding exactly that method's own count and flagged rows; the report keys
are precisely the applicable methods, so no results are merged across
methods. -/
theorem anomalies_all_per_method (d : DetectorInput) (m : String)
    (hm : m ∈ anomalyMethods) (ha : methodApplicable d m = true) :
    (detect d "all").lookup m =
      some { count := (methodFlagged d m).length
             description := methodDescription m
             anomalies := methodFlagged d m }
    ∧ (detect d "all").map Prod.fst = anomalyMethods.filter (fun x => methodApplicable d x)
    ∧ (Api6.anomalies Option.none).body =
        ReqBody.jsonBody (JVal.jobj [("method", JVal.jstr "all")]) := by
  refine ⟨?_, ?_, rfl⟩
  · have hs : (runMethod d m).isSome = true := by
      rw [runMethod_isSome]
      exact ha
    have hl := lookup_keyed_filterMap anomalyMethods (runMethod d) m hm hs
    have hdet : detect d "all"
        = anomalyMethods.filterMap (fun x => (runMethod d x).map (fun r => (x, r))) := by
      simp [detect]
    rw [hdet, hl, runMethod, ha]
    simp
  · have hdet : detect d "all"
        = anomalyMethods.filterMap (fun x => (runMethod d x).map (fun r => (x, r))) := by
      simp [detect]
    rw [hdet, map_fst_keyed_filterMap]
    have hfun : (fun x => (runMethod d x).isSome) = fun x => methodApplicable d x :=
      funext (runMethod_isSome d)
    rw [hfun]

/-- Claim C7, witness: the IQR method's own entry in the `all` report, on
the spec's example input. -/
theorem anomalies_all_per_method_witness :
    (detect detectorW "all").lookup "iqr" =
      some { count := (methodFlagged detectorW "iqr").length
             description := methodDescription "iqr"
             anomalies := methodFlagged detectorW "iqr" } :=
  (anomalies_all_per_method detectorW "iqr" (by decide) rfl).1

/-- Claim C8, counterexample.  The claim says the Predictions page always
reaches its error branch.  Calling the undefined `api.forecast` throws a
synchronous TypeError before `Promise.all` runs, so the promise `.catch`
(the page's error branch) is bypassed: the outcome is a thrown exception,
not a caught one. -/
theorem predictionsLoad_not_caught :
    (predictionsLoad StaticApi.opNames okFetch).isCaught = false
    ∧ (predictionsLoad StaticApi.opNames okFetch).isSuccess = false
    ∧ (predictionsLoad StaticApi.opNames okFetch).isThrown = true :=
  ⟨rfl, rfl, rfl⟩

/-- Claim C8, amended: `forecast` and `scenarios` are defined by none of the
three bundled api modules, so the initial load of the Predictions page
always throws (a synchronous TypeError that escapes the promise chain) and
the forecast success branch is unreachable — but the thrown error bypasses
the page's own `.catch` error branch. -/
theorem predictionsLoad_always_throws (fetched : String → Except String JVal) :
    ("forecast" ∉ StaticApi.opNames ∧ "forecast" ∉ Api5.opNames ∧ "forecast" ∉ Api6.opNames
      ∧ "scenarios" ∉ StaticApi.opNames ∧ "scenarios" ∉ Api5.opNames ∧ "scenarios" ∉ Api6.opNames)
    ∧ (predictionsLoad StaticApi.opNames fetched).isThrown = true
    ∧ (predictionsLoad StaticApi.opNames fetched).isSuccess = false
    ∧ (predictionsLoad StaticApi.opNames fetched).isCaught = false :=
  ⟨⟨by decide, by decide, by decide, by decide, by decide, by decide⟩, rfl, rfl, rfl⟩

/-- Claim C9, counterexample.  The claim says the two backend client
modules issue the same request for every operation and argument.  Called
with no argument, `anomalies` posts the empty object in part_005 but
`method: 'all'` in part_006 — different bodies, so the modules are not
behaviourally equivalent. -/
theorem api5_api6_anomalies_differ :
    Api5.anomaliesNoArg.method = (Api6.anomalies Option.none).method
    ∧ Api5.anomaliesNoArg.url = (Api6.anomalies Option.none).url
    ∧ Api5.anomaliesNoArg.body = ReqBody.jsonBody (JVal.jobj [])
    ∧ (Api6.anomalies Option.none).body = ReqBody.jsonBody (JVal.jobj [("method", JVal.jstr "all")])
    ∧ Api5.anomaliesNoArg.body ≠ (Api6.anomalies Option.none).body := by
  refine ⟨rfl, rfl, rfl, rfl, ?_⟩
  simp [Api5.anomaliesNoArg, Api5.anomalies, Api6.anomalies, Api6.postReq, Api6.anomMethod]

/-- Claim C9, amended: at like arguments the two modules agree on the HTTP
method of every operation, on the URL of every operation except `risk` with
a dimension (where part_005 interpolates the raw dimension while part_006
percent-encodes it, so the URLs agree exactly when the dimension is its own
encoding — e.g. absent, or a plain word like `Category` — and differ on a
dimension such as `A&B`), on the JSON body for `query` and positional
`compare`, and on the `exportCSV` string — but they are not behaviourally
equivalent: the default `anomalies` and `reset` bodies differ, GET headers
differ, the `risk` URLs differ at `A&B`, and the error messages built from
the same non-ok response differ. -/
theorem api5_api6_same_method_url (q d ga gb f : String) (n : Nat) :
    sameMethodUrl Api5.health Api6.health
    ∧ sameMethodUrl Api5.overview Api6.overview
    ∧ sameMethodUrl (Api5.query q) (Api6.query q)
    ∧ (Api5.query q).body = (Api6.query q).body
    ∧ sameMethodUrl Api5.insights Api6.insights
    ∧ sameMethodUrl Api5.anomaliesNoArg (Api6.anomalies Option.none)
    ∧ sameMethodUrl (Api5.risk Option.none) (Api6.risk Option.none)
    ∧ sameMethodUrl Api5.compareDimensions Api6.compareDimensions
    ∧ sameMethodUrl
        (Api5.compare (.jobj [("dimension", .jstr d), ("group_a", .jstr ga), ("group_b", .jstr gb)]))
        (Api6.comparePos d ga gb)
    ∧ (Api5.compare (.jobj [("dimension", .jstr d), ("group_a", .jstr ga), ("group_b", .jstr gb)])).body
        = (Api6.comparePos d ga gb).body
    ∧ sameMethodUrl Api5.quality Api6.quality
    ∧ sameMethodUrl (Api5.uploadReq f) (Api6.uploadReq f)
    ∧ sameMethodUrl Api5.reset Api6.reset
    ∧ sameMethodUrl Api5.schema Api6.schema
    ∧ sameMethodUrl (Api5.preview n) (Api6.preview n)
    ∧ Api5.exportCSV = Api6.exportCSV
    ∧ (Api5.risk (some d)).method = (Api6.risk (some d)).method
    ∧ sameMethodUrl (Api5.risk (some "Category")) (Api6.risk (some "Category"))
    ∧ (Api5.risk (some "A&B")).url = "/api/risk?dimension=A&B"
    ∧ (Api6.risk (some "A&B")).url = "/api/risk?dimension=A%26B"
    ∧ (Api5.risk (some "A&B")).url ≠ (Api6.risk (some "A&B")).url
    ∧ Api5.health.headers ≠ Api6.health.headers
    ∧ Api5.reset.body ≠ Api6.reset.body
    ∧ Api5.errMsg errResp ≠ Api6.errMsg errResp := by
  refine ⟨⟨rfl, rfl⟩, ⟨rfl, rfl⟩, ⟨rfl, rfl⟩, rfl, ⟨rfl, rfl⟩, ⟨rfl, rfl⟩, ⟨rfl, rfl⟩,
    ⟨rfl, rfl⟩, ⟨rfl, rfl⟩, rfl, ⟨rfl, rfl⟩, ⟨rfl, rfl⟩, ⟨rfl, rfl⟩, ⟨rfl, rfl⟩,
    ⟨rfl, rfl⟩, rfl, rfl, ⟨rfl, rfl⟩, rfl, rfl, ?_, ?_, ?_, ?_⟩
  · decide
  · simp [Api5.health, Api5.getReq, Api5.ctHeader, Api6.health, Api6.getReq]
  · simp [Api5.reset, Api6.reset, Api6.postReq]
  · decide

/-- Claim C10: after any sequence of executed queries the recent-query
history holds at most ten entries, and the most recently executed query is
first; a single push also keeps the bound and puts its entry first. -/
theorem history_bounded_most_recent_first (es : List HistoryEntry) (e : HistoryEntry) :
    (historyAfter es).length ≤ 10
    ∧ (historyAfter (es ++ [e])).head? = some e
    ∧ (∀ h : List HistoryEntry, (pushHistory e h).length ≤ 10
        ∧ (pushHistory e h).head? = some e) := by
  refine ⟨foldl_pushHistory_length_le es [] (by simp), ?_,
    fun h => ⟨pushHistory_length_le e h, rfl⟩⟩
  unfold historyAfter
  rw [List.foldl_append]
  rfl

end TransactIQ
